import Mathlib

/-!
Verification of the EG4 inverter protocol client (eg4-bridge).

The repository contains two redundant Python implementations of the same
protocol engine:

* `CustomModbusClient` in `python/backup_inverter_config.py`, modelled here
  in namespace `Backup`;
* `EG4ModbusClient` in `python_eg4_reader.py`, modelled here in namespace
  `Reader`.

Bytes are modelled as natural numbers (always < 256 on real inputs); byte
strings as `List Nat`.  Fallible paths (Python exceptions caught by the
handlers in the source) are modelled with explicit result constructors.
Namespace `Ref` holds reference definitions written from the specification's
words, to be compared against the definitions translated from the source.
-/

namespace EG4Bridge

/-- Two-byte little-endian serialisation of a 16-bit value, as produced by
Python's `int.to_bytes(2, byteorder='little')`. -/
def u16le (n : Nat) : List Nat := [n % 256, n / 256 % 256]

/-- Session state held by both clients: `self.datalog_id` and
`self.inverter_serial`, both initialised to ten zero bytes. -/
structure Session where
  datalog_id : List Nat
  inverter_serial : List Nat
deriving DecidableEq, Repr

/-- The initial session: both identifiers are ten zero bytes
(`bytearray(10)` in both `__init__` methods). -/
def initSession : Session :=
  { datalog_id := List.replicate 10 0, inverter_serial := List.replicate 10 0 }

/-- Outcome of one `read_response` call.  `heartbeat` models the Python
`return None` taken on a heartbeat frame, `payload` a returned data section,
and `failure` every caught-exception / logged-error path that yields no data. -/
inductive ReadResult where
  | heartbeat : ReadResult
  | payload (data : List Nat) : ReadResult
  | failure (msg : String) : ReadResult
deriving DecidableEq, Repr

namespace Backup

/-- One shift round of `CustomModbusClient.calculate_crc16`: Python's
`if crc & 0x0001: crc = (crc >> 1) ^ 0xA001 else: crc = crc >> 1`. -/
def crc16_step (crc : Nat) : Nat :=
  if crc &&& 0x0001 ≠ 0 then (crc >>> 1) ^^^ 0xA001 else crc >>> 1

/-- Per-byte update of `calculate_crc16`: `crc ^= b` followed by eight shift
rounds. -/
def crc16_update (crc b : Nat) : Nat := crc16_step^[8] (crc ^^^ b)

/-- `CustomModbusClient.calculate_crc16` up to (but not including) the final
serialisation: the 16-bit CRC value, starting from `0xFFFF`. -/
def calculate_crc16 (data : List Nat) : Nat := data.foldl crc16_update 0xFFFF

/-- The two bytes returned by `CustomModbusClient.calculate_crc16`:
`bytes([crc & 0xFF, (crc >> 8) & 0xFF])`. -/
def crc16_bytes (data : List Nat) : List Nat :=
  [calculate_crc16 data &&& 0xFF, (calculate_crc16 data >>> 8) &&& 0xFF]

end Backup

namespace Ref

/-- Reference CRC-16/MODBUS round, written from the specification's words:
"8 iterations that shift right by 1 and XOR 0xA001 when the shifted-out LSB
was set". -/
def crc16_round (crc : Nat) : Nat :=
  if crc % 2 = 1 then crc / 2 ^^^ 0xA001 else crc / 2

/-- Reference MODBUS CRC-16 running value: each byte is XORed into the low
byte of the running CRC, then eight rounds are applied. -/
def modbus_crc16_go (crc : Nat) : List Nat → Nat
  | [] => crc
  | b :: rest => modbus_crc16_go (crc16_round^[8] (crc ^^^ b)) rest

/-- Reference MODBUS CRC-16 of a byte sequence, initial value `0xFFFF`. -/
def modbus_crc16 (data : List Nat) : Nat := modbus_crc16_go 0xFFFF data

/-- Reference little-endian serialisation of the 16-bit CRC. -/
def modbus_crc16_le (data : List Nat) : List Nat :=
  [modbus_crc16 data % 256, modbus_crc16 data / 256 % 256]

end Ref

namespace Backup

/-- Data section of `CustomModbusClient.build_packet`: source byte 0, function
code 3 (read holding registers), the current inverter serial, then register
address and count as 16-bit little-endian values (masked with `0xFFFF` as in
the source). -/
def build_data (st : Session) (register_address count : Nat) : List Nat :=
  [0x00, 0x03] ++ st.inverter_serial
    ++ u16le (register_address &&& 0xFFFF) ++ u16le (count &&& 0xFFFF)

/-- First eight header bytes of `CustomModbusClient.build_packet`: magic bytes
`A1 1A`, protocol version 1, frame length `data_len + 12`, reserved byte 1,
TCP function 0xC2. -/
def build_preamble (data_len : Nat) : List Nat :=
  [0xA1, 0x1A] ++ u16le 0x01 ++ u16le (data_len + 12) ++ [0x01, 0xC2]

/-- Header of `CustomModbusClient.build_packet`: the eight fixed bytes, then
the current datalog ID. -/
def build_header (st : Session) (data_len : Nat) : List Nat :=
  build_preamble data_len ++ st.datalog_id

/-- `CustomModbusClient.build_packet`: header, then data section, then the
CRC16 of header + data appended at the end. -/
def build_packet (st : Session) (register_address count : Nat) : List Nat :=
  let data := build_data st register_address count
  let header := build_header st data.length
  header ++ data ++ crc16_bytes (header ++ data)

/-- The outgoing-packet CRC self-check at the end of
`CustomModbusClient.build_packet`: it compares the just-computed CRC with the
last two bytes (`packet[-2:]`) of the just-assembled packet, logging a warning
when they differ. -/
def build_packet_crc_check (st : Session) (register_address count : Nat) : Bool :=
  crc16_bytes (build_header st (build_data st register_address count).length
      ++ build_data st register_address count)
    == (build_packet st register_address count).drop
        ((build_packet st register_address count).length - 2)

end Backup

namespace Reader

/-- `EG4ModbusClient.build_packet`: same layout as the backup variant, but the
function bytes depend on `is_input` (0x04/0xC3 for input registers, 0x03/0xC2
for holding registers) and no CRC is appended. -/
def build_packet (st : Session) (register_address count : Nat) (is_input : Bool) :
    List Nat :=
  let data := [0x00, if is_input then 0x04 else 0x03] ++ st.inverter_serial
    ++ u16le (register_address &&& 0xFFFF) ++ u16le (count &&& 0xFFFF)
  let header := [0xA1, 0x1A] ++ u16le 0x01 ++ u16le (data.length + 12)
    ++ [0x01, if is_input then 0xC3 else 0xC2] ++ st.datalog_id
  header ++ data

end Reader

namespace Ref

/-- The read-request frame exactly as the specification words it: magic bytes
`0xA1 0x1A`, protocol version 1 (u16 LE), frame length = payload length + 12
(u16 LE), reserved byte 1, function byte 0xC2 (holding) or 0xC3 (input), the
current 10-byte datalog ID, then a payload of source byte 0, function code
0x03 or 0x04, the current 10-byte inverter serial, address (u16 LE), count
(u16 LE), followed by the CRC16 computed over header + payload appended at
the end. -/
def claimed_read_request (st : Session) (address count : Nat) (is_input : Bool) :
    List Nat :=
  let payload := [0, if is_input then 4 else 3] ++ st.inverter_serial
    ++ u16le (address % 65536) ++ u16le (count % 65536)
  let header := [0xA1, 0x1A] ++ u16le 1 ++ u16le (payload.length + 12)
    ++ [1, if is_input then 0xC3 else 0xC2] ++ st.datalog_id
  header ++ payload ++ modbus_crc16_le (header ++ payload)

end Ref

/-- Register-value extraction shared by both read loops: consecutive
little-endian 16-bit words (`int.from_bytes(response[i*2:i*2+2], 'little')`);
a trailing odd byte is dropped. -/
def decode_words : List Nat → List Nat
  | a :: b :: rest => (a + 256 * b) :: decode_words rest
  | _ => []

namespace Backup

/-- `CustomModbusClient.read_response`, modelled on the fully buffered frame
bytes.  A buffer of at least 19 bytes starting `a1 1a 02 00` is a heartbeat
(Python returns `None`, session untouched); an empty or short buffer raises
(the caught exception becomes `failure`); otherwise the buffer is split into a
19-byte header, a data section, and a trailing 2-byte CRC, and the session is
overwritten with `header[8:18]` and `data_section[3:13]` unconditionally —
including when the received CRC does not match (the source only logs a
warning on mismatch). -/
def read_response (st : Session) (buf : List Nat) : Session × ReadResult :=
  if 19 ≤ buf.length ∧ buf.take 4 = [0xA1, 0x1A, 0x02, 0x00] then
    (st, .heartbeat)
  else if buf.length = 0 then
    (st, .failure "No data received")
  else if buf.length < 21 then
    (st, .failure "Response too short")
  else
    let header := buf.take 19
    let data_section := (buf.drop 19).take (buf.length - 21)
    ({ datalog_id := (header.drop 8).take 10,
       inverter_serial := (data_section.drop 3).take 10 },
      .payload data_section)

/-- The CRC comparison made (and merely logged) by
`CustomModbusClient.read_response`: the CRC16 of the data section
(`data[19:-2]`) against the transmitted trailing two bytes (`data[-2:]`).
The source consults this comparison only for a warning message; it never
affects control flow. -/
def crc_matches (buf : List Nat) : Bool :=
  crc16_bytes ((buf.drop 19).take (buf.length - 21)) == buf.drop (buf.length - 2)

/-- Result of `CustomModbusClient.read_holding_registers`: either the returned
value list or the exception the source re-raises on exhausted retries. -/
inductive HoldResult where
  | ok (values : List Nat)
  | error (msg : String)
deriving DecidableEq, Repr

/-- Outcome of `CustomModbusClient.read_holding_registers`: the returned value
list or the raised exception, together with how many request packets were sent
and the sleeps performed (in milliseconds). -/
structure HoldOutcome where
  result : HoldResult
  attempts : Nat
  sleeps_ms : List Nat
deriving DecidableEq, Repr

/-- Retry loop of `CustomModbusClient.read_holding_registers`, driven by the
successive `read_response` outcomes.  A heartbeat takes the `continue` branch
without touching the retry counter; any failure increments it, sleeping
`delay_ms` milliseconds (`time.sleep(self.delay_ms / 1000)`) between attempts,
and the third failure re-raises; a payload shorter than 2 bytes raises
"Response too short"; otherwise the payload is decoded into 16-bit words and
returned after the inter-read delay. -/
def read_holding_go (delay_ms : Nat) :
    List ReadResult → Nat → Nat → List Nat → HoldOutcome
  | [], _, attempts, sleeps => ⟨.error "no further input", attempts, sleeps⟩
  | r :: rest, retry_count, attempts, sleeps =>
    match r with
    | .heartbeat => read_holding_go delay_ms rest retry_count (attempts + 1) sleeps
    | .payload d =>
        if d.length < 2 then
          if retry_count + 1 < 3 then
            read_holding_go delay_ms rest (retry_count + 1) (attempts + 1)
              (sleeps ++ [delay_ms])
          else ⟨.error "Response too short", attempts + 1, sleeps⟩
        else ⟨.ok (decode_words d), attempts + 1, sleeps ++ [delay_ms]⟩
    | .failure msg =>
        if retry_count + 1 < 3 then
          read_holding_go delay_ms rest (retry_count + 1) (attempts + 1)
            (sleeps ++ [delay_ms])
        else ⟨.error msg, attempts + 1, sleeps⟩

/-- `CustomModbusClient.read_holding_registers` for a given script of
`read_response` outcomes. -/
def read_holding_registers (script : List ReadResult) (delay_ms : Nat) : HoldOutcome :=
  read_holding_go delay_ms script 0 0 []

end Backup

namespace Reader

/-- Position of the first occurrence of the magic bytes `a1 1a`
(`bytearray.find(b'\xa1\x1a')`), if any. -/
def findMagic : List Nat → Option Nat
  | a :: b :: rest =>
      if a = 0xA1 ∧ b = 0x1A then some 0
      else (findMagic (b :: rest)).map (· + 1)
  | _ => none

/-- Tail of `EG4ModbusClient.read_response` once a header buffer is fixed:
frame length from `header[4:6]` (little-endian, tolerant of a short slice as
`int.from_bytes` is), function code from `header[7]` (an out-of-range access
raises and is caught).  Function code 0xC1 is a heartbeat: the source answers
it and returns `None` WITHOUT updating the session.  Otherwise, when
`frame_len - 8 > 0` the next received chunk is returned verbatim as the data
section — no CRC is ever computed or checked in this variant. -/
def parse_after_magic (st : Session) (header dataChunk : List Nat) :
    Session × ReadResult :=
  match header.get? 7 with
  | none => (st, .failure "Error reading response")
  | some fc =>
    let frame_len :=
      match (header.drop 4).take 2 with
      | [lo, hi] => lo + 256 * hi
      | [lo] => lo
      | _ => 0
    if fc = 0xC1 then (st, .heartbeat)
    else if 8 < frame_len then
      if dataChunk.length = 0 then (st, .failure "No data received after header")
      else (st, .payload dataChunk)
    else (st, .failure "Invalid frame length")

/-- `EG4ModbusClient.read_response`: first received chunk, optional second
chunk read when the magic bytes are not found in the first, and the chunk
received for the data section.  When the magic bytes are found in the first
chunk the source proceeds without discarding any preceding bytes; only in the
second-chunk path does it realign to the magic position. -/
def read_response (st : Session) (chunk1 chunk2 dataChunk : List Nat) :
    Session × ReadResult :=
  if chunk1.length = 0 then (st, .failure "No header received")
  else
    match findMagic chunk1 with
    | some _ => parse_after_magic st chunk1 dataChunk
    | none =>
        if chunk2.length = 0 then (st, .failure "No additional data received")
        else
          match findMagic (chunk1 ++ chunk2) with
          | none => (st, .failure "Magic bytes not found in extended response")
          | some k => parse_after_magic st ((chunk1 ++ chunk2).drop k) dataChunk

/-- Outcome of `EG4ModbusClient.read_registers`: the optional value list (the
source returns `None` on exhausted retries), the number of request packets
sent and the sleeps performed (in milliseconds). -/
structure ReadOutcome where
  result : Option (List Nat)
  attempts : Nat
  sleeps_ms : List Nat
deriving DecidableEq, Repr

/-- Retry loop of `EG4ModbusClient.read_registers`, driven by the successive
`read_response` outcomes.  `read_response` returns `None` both for heartbeats
and for every failure, and the loop counts EVERY `None` as a failed attempt
(`retry_count += 1`), sleeping one second (1000 ms) before the next attempt;
a payload shorter than 2 bytes raises and is counted the same way; a decoded
payload is returned after the `delay_ms` inter-read sleep. -/
def read_registers_go (delay_ms : Nat) :
    List ReadResult → Nat → Nat → List Nat → ReadOutcome
  | [], _, attempts, sleeps => ⟨none, attempts, sleeps⟩
  | r :: rest, retry_count, attempts, sleeps =>
    if 3 ≤ retry_count then ⟨none, attempts, sleeps⟩
    else
      match r with
      | .payload d =>
          if d.length < 2 then
            read_registers_go delay_ms rest (retry_count + 1) (attempts + 1)
              (if retry_count + 1 < 3 then sleeps ++ [1000] else sleeps)
          else ⟨some (decode_words d), attempts + 1, sleeps ++ [delay_ms]⟩
      | _ =>
          read_registers_go delay_ms rest (retry_count + 1) (attempts + 1)
            (if retry_count + 1 < 3 then sleeps ++ [1000] else sleeps)

/-- `EG4ModbusClient.read_registers` for a given script of `read_response`
outcomes. -/
def read_registers (script : List ReadResult) (delay_ms : Nat) : ReadOutcome :=
  read_registers_go delay_ms script 0 0 []

end Reader

/-- The parts of a register definition consumed by the two decoders: eg4's
decoder reads `unit_scale`, `display_as`, `enum_values` (value/name pairs),
`flags` (bit/name pairs) and `fields` (byte/name pairs); the backup decoder
reads `display_as`, `flags`, `enum_map` (keyed by the register value) and
`scaling`.  Scales are modelled as rationals. -/
structure RegDef where
  display_as : Option String := none
  unit_scale : Option ℚ := none
  enum_values : List (Nat × String) := []
  flags : List (Nat × String) := []
  fields : List (Nat × String) := []
  enum_map : List (Nat × String) := []
  scaling : Option ℚ := none
deriving DecidableEq, Repr

/-- A decoded register value, keeping Python's result shapes apart: plain
integer, scaled number (Python float), enum name, eg4's list of set-flag
names, backup's name-to-boolean mapping, and named byte sub-fields. -/
inductive DecodedValue where
  | intVal (n : Nat)
  | floatVal (q : ℚ)
  | strVal (s : String)
  | flagNames (names : List String)
  | flagBools (flags : List (String × Bool))
  | fieldVals (fields : List (String × Nat))
deriving DecidableEq, Repr

namespace Reader

/-- `decode_register_value` from `python_eg4_reader.py`: a missing definition
passes the value through; otherwise the value is scaled by
`reg_def.get('unit_scale', 1.0)` (a Python float product); `enum` looks the
value up in `enum_values` with the raw value as fallback; `flags` returns the
LIST of names of set bits; `fields` extracts the named bytes; every other
`display_as` (including absent) returns the scaled value. -/
def decode_register_value (reg_def : Option RegDef) (value : Nat) : DecodedValue :=
  match reg_def with
  | none => .intVal value
  | some d =>
    let scaled : ℚ := (value : ℚ) * d.unit_scale.getD 1
    if d.display_as = some "enum" then
      match d.enum_values.find? (fun p => p.1 == value) with
      | some p => .strVal p.2
      | none => .intVal value
    else if d.display_as = some "flags" then
      .flagNames (d.flags.filterMap fun p =>
        if value &&& (1 <<< p.1) ≠ 0 then some p.2 else none)
    else if d.display_as = some "fields" then
      .fieldVals (d.fields.map fun p => (p.2, (value >>> (p.1 * 8)) &&& 0xFF))
    else .floatVal scaled

/-- `bcd_to_int` from `python_eg4_reader.py`. -/
def bcd_to_int (bcd : Nat) : Nat := (bcd >>> 4) * 10 + (bcd &&& 0x0F)

/-- `check_time_delta` from `python_eg4_reader.py`, on the value list returned
by `read_registers(12, 3)`.  The datetime construction and subtraction against
the system clock are abstracted into `toDelta` (any out-of-range date raises
inside the same `try`, i.e. yields `none`).  The source extracts
year/month/day/hour/minute from `values[0..2]` and the seconds field from
`values[3]`; an out-of-range index raises and the handler returns `None`,
modelled by the `none` fallthrough. -/
def check_time_delta (toDelta : Nat → Nat → Nat → Nat → Nat → Nat → Option Int)
    (values : Option (List Nat)) : Option Int :=
  match values with
  | none => none
  | some vs =>
    if vs.length < 3 then none
    else
      match vs.get? 0, vs.get? 1, vs.get? 2, vs.get? 3 with
      | some v0, some v1, some v2, some v3 =>
          toDelta
            (bcd_to_int (v0 &&& 0xFF) + bcd_to_int ((v0 >>> 8) &&& 0xFF) * 100)
            (bcd_to_int (v1 &&& 0xFF))
            (bcd_to_int ((v1 >>> 8) &&& 0xFF))
            (bcd_to_int (v2 &&& 0xFF))
            (bcd_to_int ((v2 >>> 8) &&& 0xFF))
            (bcd_to_int (v3 &&& 0xFF))
      | _, _, _, _ => none

end Reader

namespace Backup

/-- `decode_register_value` from `python/backup_inverter_config.py`: `flags`
returns a name-to-boolean mapping over all declared bits; `enum` looks the
value up in `enum_map` with the raw value as fallback; `float` scales by
`scaling`; every other case — including absent `display_as` — returns the raw
integer, ignoring any scale. -/
def decode_register_value (register_def : RegDef) (value : Nat) : DecodedValue :=
  if register_def.display_as = some "flags" then
    .flagBools (register_def.flags.map fun p => (p.2, (value &&& (1 <<< p.1)) != 0))
  else if register_def.display_as = some "enum" then
    match register_def.enum_map.find? (fun p => p.1 == value) with
    | some p => .strVal p.2
    | none => .intVal value
  else if register_def.display_as = some "float" then
    .floatVal ((value : ℚ) * register_def.scaling.getD 1)
  else .intVal value

end Backup

namespace Ref

/-- The decoder exactly as the specification words it: `raw`/absent yields
`raw_value * unit_scale` (a float when the scale is not 1, the integer
otherwise); `enum` yields the name mapped to the value in the definition's
enum table, falling back to the raw value; `flags` yields a named boolean for
each declared bit position; `fields` yields each declared byte as a named
sub-field. -/
def claimed_decode (d : RegDef) (value : Nat) : DecodedValue :=
  if d.display_as = none ∨ d.display_as = some "raw" then
    if d.unit_scale.getD 1 = 1 then .intVal value
    else .floatVal ((value : ℚ) * d.unit_scale.getD 1)
  else if d.display_as = some "enum" then
    match d.enum_values.find? (fun p => p.1 == value) with
    | some p => .strVal p.2
    | none => .intVal value
  else if d.display_as = some "flags" then
    .flagBools (d.flags.map fun p => (p.2, (value &&& (1 <<< p.1)) != 0))
  else if d.display_as = some "fields" then
    .fieldVals (d.fields.map fun p => (p.2, (value >>> (p.1 * 8)) &&& 0xFF))
  else .intVal value

end Ref

namespace Fixtures

/-- A concrete ASCII datalog ID ("1234567890"). -/
def sampleDatalog : List Nat :=
  [0x31, 0x32, 0x33, 0x34, 0x35, 0x36, 0x37, 0x38, 0x39, 0x30]

/-- A concrete ASCII inverter serial ("ABCDEFGHIJ"). -/
def sampleSerial : List Nat :=
  [0x41, 0x42, 0x43, 0x44, 0x45, 0x46, 0x47, 0x48, 0x49, 0x4A]

/-- A complete 34-byte inbound frame for the backup variant whose trailing two
CRC bytes (`00 00`) do not match the CRC16 of its data section. -/
def badCrcFrame : List Nat :=
  [0xA1, 0x1A, 0x01, 0x00, 0x20, 0x00, 0x01, 0xC2] ++ sampleDatalog ++ [0x00]
    ++ ([0x00, 0x61, 0x62] ++ sampleSerial) ++ [0x00, 0x00]

/-- A received heartbeat frame for the reader variant: function byte 0xC1 at
offset 7, carrying `sampleDatalog`. -/
def hbChunk : List Nat :=
  [0xA1, 0x1A, 0x02, 0x00, 0x0D, 0x00, 0x01, 0xC1] ++ sampleDatalog ++ [0x00]

/-- A received data-response header chunk for the reader variant: function
byte 0xC2, frame length 17, carrying `sampleDatalog` at offsets 8-17. -/
def dataHeaderChunk : List Nat :=
  [0xA1, 0x1A, 0x01, 0x00, 0x11, 0x00, 0x01, 0xC2] ++ sampleDatalog

/-- A flags register definition naming bit 3 "fault". -/
def flagsFault : RegDef := { display_as := some "flags", flags := [(3, "fault")] }

/-- A register definition with unit scale 0.1 and no `display_as`. -/
def scaleTenth : RegDef := { unit_scale := some (1 / 10) }

/-- An enum register definition (eg4 shape) mapping 2 to "standby". -/
def enumStandby : RegDef :=
  { display_as := some "enum", enum_values := [(2, "standby")] }

/-- An enum register definition (backup shape) mapping 2 to "standby". -/
def enumStandbyMap : RegDef :=
  { display_as := some "enum", enum_map := [(2, "standby")] }

/-- A fields register definition naming byte 0 "lo" and byte 1 "hi". -/
def fieldsLoHi : RegDef :=
  { display_as := some "fields", fields := [(0, "lo"), (1, "hi")] }

/-- A float register definition (backup shape) with scaling 0.1. -/
def floatTenth : RegDef := { display_as := some "float", scaling := some (1 / 10) }

end Fixtures

end EG4Bridge

namespace EG4Bridge

lemma crc16_step_eq_round : Backup.crc16_step = Ref.crc16_round := by
  funext crc
  unfold Backup.crc16_step Ref.crc16_round
  rw [Nat.and_one_is_mod, Nat.shiftRight_eq_div_pow, pow_one]
  rcases Nat.mod_two_eq_zero_or_one crc with h | h <;> simp [h]

lemma crc16_update_eq (crc b : Nat) :
    Backup.crc16_update crc b = Ref.crc16_round^[8] (crc ^^^ b) := by
  unfold Backup.crc16_update
  rw [crc16_step_eq_round]

lemma crc16_foldl_eq_go (data : List Nat) :
    ∀ crc : Nat, data.foldl Backup.crc16_update crc = Ref.modbus_crc16_go crc data := by
  induction data with
  | nil => intro crc; rfl
  | cons b rest ih =>
      intro crc
      rw [List.foldl_cons, ih]
      rw [crc16_update_eq]
      rfl

lemma crc16_agrees (data : List Nat) :
    Backup.calculate_crc16 data = Ref.modbus_crc16 data :=
  crc16_foldl_eq_go data 0xFFFF

lemma and_mask8 (n : Nat) : n &&& 0xFF = n % 256 := by
  simpa using Nat.and_pow_two_sub_one_eq_mod n 8

lemma and_mask16 (n : Nat) : n &&& 0xFFFF = n % 65536 := by
  simpa using Nat.and_pow_two_sub_one_eq_mod n 16

lemma shiftRight8_eq (n : Nat) : n >>> 8 = n / 256 := by
  rw [Nat.shiftRight_eq_div_pow]

lemma crc16_bytes_agrees (data : List Nat) :
    Backup.crc16_bytes data = Ref.modbus_crc16_le data := by
  unfold Backup.crc16_bytes Ref.modbus_crc16_le
  rw [crc16_agrees, and_mask8, shiftRight8_eq, and_mask8]

/-- C1: `CustomModbusClient.calculate_crc16` computes CRC-16/MODBUS — initial
value 0xFFFF, per byte XOR into the low byte then eight shift/0xA001 rounds —
and serialises the 16-bit result as two little-endian bytes; on every input it
agrees with the reference MODBUS CRC-16 implementation. -/
theorem backup_crc16_is_modbus (data : List Nat) :
    Backup.calculate_crc16 data = Ref.modbus_crc16 data ∧
    Backup.crc16_bytes data = Ref.modbus_crc16_le data :=
  ⟨crc16_agrees data, crc16_bytes_agrees data⟩

lemma crc16_bytes_length (data : List Nat) : (Backup.crc16_bytes data).length = 2 :=
  rfl

lemma drop_length_sub_two (l crc : List Nat) (h : crc.length = 2) :
    (l ++ crc).drop ((l ++ crc).length - 2) = crc := by
  rw [List.length_append, h, Nat.add_sub_cancel]
  exact List.drop_left l crc

lemma backup_build_packet_eq (st : Session) (a c : Nat) :
    Backup.build_packet st a c =
      Backup.build_header st (Backup.build_data st a c).length
        ++ Backup.build_data st a c
        ++ Backup.crc16_bytes (Backup.build_header st (Backup.build_data st a c).length
            ++ Backup.build_data st a c) := rfl

/-- C9: the outgoing-packet CRC self-check inside
`CustomModbusClient.build_packet` always passes — the packet ends with the two
bytes that were just computed, so the CRC-mismatch warning branch is
unreachable for every session state, register address and count. -/
theorem backup_outgoing_crc_check_always_passes
    (st : Session) (register_address count : Nat) :
    Backup.build_packet_crc_check st register_address count = true := by
  unfold Backup.build_packet_crc_check
  rw [backup_build_packet_eq, drop_length_sub_two _ _ (crc16_bytes_length _)]
  exact beq_self_eq_true _

/-- C5 (amended): `EG4ModbusClient.build_packet` produces exactly the claimed
frame layout minus the trailing CRC — appending the CRC16 of the built bytes
yields precisely the claimed frame — while `CustomModbusClient.build_packet`
produces the full claimed frame (CRC included) but only for holding registers
(function bytes 0x03/0xC2). -/
theorem build_request_layout :
    (∀ (st : Session) (address count : Nat) (i : Bool),
        Reader.build_packet st address count i
            ++ Backup.crc16_bytes (Reader.build_packet st address count i)
          = Ref.claimed_read_request st address count i) ∧
    (∀ (st : Session) (address count : Nat),
        Backup.build_packet st address count
          = Ref.claimed_read_request st address count false) := by
  constructor
  · intro st address count i
    rw [crc16_bytes_agrees]
    simp only [Reader.build_packet, Ref.claimed_read_request, and_mask16]
  · intro st address count
    rw [backup_build_packet_eq, crc16_bytes_agrees]
    simp only [Backup.build_data, Backup.build_header, Backup.build_preamble,
      Ref.claimed_read_request, and_mask16]
    simp [List.append_assoc]

/-- C5 (counterexample): on a concrete input the frame built by
`EG4ModbusClient.build_packet` is not the claimed frame — it is two bytes
shorter, because no CRC is appended. -/
theorem reader_build_packet_lacks_crc :
    (Reader.build_packet initSession 0 1 false).length = 34 ∧
    (Ref.claimed_read_request initSession 0 1 false).length = 36 ∧
    Reader.build_packet initSession 0 1 false
      ≠ Ref.claimed_read_request initSession 0 1 false := by
  refine ⟨by decide, by decide, ?_⟩
  decide

set_option maxRecDepth 4000 in
/-- C2: on a concrete non-heartbeat frame whose transmitted CRC bytes do not
match the CRC16 of its data section, `CustomModbusClient.read_response` does
not reject the frame — it overwrites both session fields from the unverified
bytes and returns the data section for register decoding; the CRC comparison
is consulted only for a log message. -/
theorem backup_crc_mismatch_still_decoded :
    Backup.crc_matches Fixtures.badCrcFrame = false ∧
    Backup.read_response initSession Fixtures.badCrcFrame
      = ({ datalog_id := Fixtures.sampleDatalog,
           inverter_serial := Fixtures.sampleSerial },
         .payload ([0x00, 0x61, 0x62] ++ Fixtures.sampleSerial)) := by
  constructor
  · decide
  · decide

/-- C3 (counterexample): `EG4ModbusClient.read_response` accepts a data frame
whose header carries the datalog ID "1234567890", returns its payload, and
leaves the session at its all-zero defaults — the stored fields do not equal
the frame's identifiers, and every subsequently built frame embeds the stale
default bytes. -/
theorem reader_never_updates_session :
    Reader.read_response initSession Fixtures.dataHeaderChunk [] [0x00, 0x10, 0x20]
      = (initSession, .payload [0x00, 0x10, 0x20]) ∧
    (Fixtures.dataHeaderChunk.drop 8).take 10 = Fixtures.sampleDatalog ∧
    Fixtures.sampleDatalog ≠ initSession.datalog_id := by
  refine ⟨by decide, by decide, by decide⟩

lemma backup_preamble_length (data_len : Nat) :
    (Backup.build_preamble data_len).length = 8 := by
  simp [Backup.build_preamble, u16le]

lemma backup_build_packet_assoc (st : Session) (a c : Nat) :
    Backup.build_packet st a c
      = (Backup.build_preamble (Backup.build_data st a c).length ++ st.datalog_id
          ++ [0x00, 0x03])
        ++ (st.inverter_serial
          ++ (u16le (a &&& 0xFFFF) ++ u16le (c &&& 0xFFFF)
            ++ Backup.crc16_bytes (Backup.build_header st (Backup.build_data st a c).length
                ++ Backup.build_data st a c))) := by
  rw [backup_build_packet_eq]
  simp [Backup.build_header, Backup.build_data, List.append_assoc]

lemma backup_build_packet_serial_at_20 (st : Session) (a c : Nat)
    (h : st.datalog_id.length = 10) :
    ((Backup.build_packet st a c).drop 20).take st.inverter_serial.length
      = st.inverter_serial := by
  rw [backup_build_packet_assoc]
  rw [List.drop_left' (by simp [backup_preamble_length, h])]
  exact List.take_left _ _

lemma backup_build_packet_datalog_at_8 (st : Session) (a c : Nat)
    (h : st.datalog_id.length = 10) :
    ((Backup.build_packet st a c).drop 8).take 10 = st.datalog_id := by
  rw [backup_build_packet_eq, Backup.build_header]
  rw [List.append_assoc, List.append_assoc]
  rw [List.drop_left' (backup_preamble_length _)]
  exact List.take_left' h

/-- C3 (amended): in `CustomModbusClient`, after `read_response` processes a
complete non-heartbeat frame, the stored session fields equal exactly the
10-byte datalog ID at header offset 8 and the 10 bytes at offset 3 of the data
section, overwritten unconditionally — never a previous or default value — and
every subsequently built request packet embeds the stored datalog ID at header
offset 8 and the stored serial at payload offset 2 (packet offset 20)
verbatim.  (`EG4ModbusClient.read_response` never updates the session, see the
counterexample.) -/
theorem backup_session_propagation (st : Session) (buf : List Nat)
    (address count : Nat) (h1 : 34 ≤ buf.length)
    (h2 : buf.take 4 ≠ [0xA1, 0x1A, 0x02, 0x00]) :
    (Backup.read_response st buf).2
      = .payload ((buf.drop 19).take (buf.length - 21)) ∧
    (Backup.read_response st buf).1.datalog_id = (buf.drop 8).take 10 ∧
    (Backup.read_response st buf).1.inverter_serial
      = (((buf.drop 19).take (buf.length - 21)).drop 3).take 10 ∧
    ((Backup.build_packet (Backup.read_response st buf).1 address count).drop 8).take 10
      = (Backup.read_response st buf).1.datalog_id ∧
    ((Backup.build_packet (Backup.read_response st buf).1 address count).drop 20).take 10
      = (Backup.read_response st buf).1.inverter_serial := by
  have hhb : ¬ (19 ≤ buf.length ∧ buf.take 4 = [0xA1, 0x1A, 0x02, 0x00]) :=
    fun h => h2 h.2
  have h0 : ¬ buf.length = 0 := by omega
  have hlt : ¬ buf.length < 21 := by omega
  have hresp : Backup.read_response st buf
      = ({ datalog_id := ((buf.take 19).drop 8).take 10,
           inverter_serial := (((buf.drop 19).take (buf.length - 21)).drop 3).take 10 },
         .payload ((buf.drop 19).take (buf.length - 21))) := by
    rw [Backup.read_response, if_neg hhb, if_neg h0, if_neg hlt]
  have hdl : ((buf.take 19).drop 8).take 10 = (buf.drop 8).take 10 := by
    rw [List.drop_take, List.take_take]
    norm_num
  have hdlen : ((buf.drop 8).take 10).length = 10 := by
    simp [List.length_take, List.length_drop]
    omega
  have hslen : ((((buf.drop 19).take (buf.length - 21)).drop 3).take 10).length = 10 := by
    simp [List.length_take, List.length_drop]
    omega
  rw [hresp, hdl]
  refine ⟨rfl, rfl, rfl, ?_, ?_⟩
  · exact backup_build_packet_datalog_at_8 _ address count hdlen
  · have := backup_build_packet_serial_at_20
      ⟨(buf.drop 8).take 10, (((buf.drop 19).take (buf.length - 21)).drop 3).take 10⟩
      address count hdlen
    rw [hslen] at this
    exact this

/-- Witness for C3 (amended) at the concrete 34-byte frame. -/
theorem backup_session_propagation_witness :
    (34 ≤ Fixtures.badCrcFrame.length ∧
      Fixtures.badCrcFrame.take 4 ≠ [0xA1, 0x1A, 0x02, 0x00]) ∧
    ((Backup.read_response initSession Fixtures.badCrcFrame).2
      = .payload ((Fixtures.badCrcFrame.drop 19).take (Fixtures.badCrcFrame.length - 21)) ∧
    (Backup.read_response initSession Fixtures.badCrcFrame).1.datalog_id
      = (Fixtures.badCrcFrame.drop 8).take 10 ∧
    (Backup.read_response initSession Fixtures.badCrcFrame).1.inverter_serial
      = (((Fixtures.badCrcFrame.drop 19).take (Fixtures.badCrcFrame.length - 21)).drop 3).take 10 ∧
    ((Backup.build_packet (Backup.read_response initSession Fixtures.badCrcFrame).1 0 1).drop 8).take 10
      = (Backup.read_response initSession Fixtures.badCrcFrame).1.datalog_id ∧
    ((Backup.build_packet (Backup.read_response initSession Fixtures.badCrcFrame).1 0 1).drop 20).take 10
      = (Backup.read_response initSession Fixtures.badCrcFrame).1.inverter_serial) :=
  ⟨⟨by decide, by decide⟩,
    backup_session_propagation initSession Fixtures.badCrcFrame 0 1
      (by decide) (by decide)⟩

/-- C4: in `EG4ModbusClient`, a heartbeat received while awaiting a response
DOES consume retry budget: `read_response` maps a concrete heartbeat frame to
the same `None` as a failure, `read_registers` counts every `None` as a failed
attempt, and three interleaved heartbeats exhaust `max_retries` and make the
read return `None` (with the two 1-second retry sleeps).  The backup variant,
by contrast, loops on heartbeats without touching the retry counter. -/
theorem reader_heartbeats_consume_retry_budget :
    Reader.read_response initSession Fixtures.hbChunk [] []
      = (initSession, .heartbeat) ∧
    Reader.read_registers [.heartbeat, .heartbeat, .heartbeat] 200
      = ⟨none, 3, [1000, 1000]⟩ ∧
    Backup.read_holding_registers
        [.heartbeat, .heartbeat, .heartbeat, .payload [0x34, 0x12]] 200
      = ⟨.ok [0x1234], 4, [200]⟩ := by
  refine ⟨by decide, by decide, by decide⟩

/-- C6: a response whose data section starts with the nonzero error code 0x02
is not surfaced as a device error by `EG4ModbusClient`: `read_response`
returns the data section unchanged (the error code is only logged), and
`read_registers` decodes those bytes — error code included — into register
values returned to the caller (0x02,0x31 becomes the "register value" 12546). -/
theorem reader_error_code_not_surfaced :
    Reader.read_response initSession Fixtures.dataHeaderChunk [] [0x02, 0x31]
      = (initSession, .payload [0x02, 0x31]) ∧
    Reader.read_registers [.payload [0x02, 0x31]] 200
      = ⟨some [12546], 1, [200]⟩ := by
  refine ⟨by decide, by decide⟩

/-- C7 (counterexample): with a transport that always times out,
`CustomModbusClient.read_holding_registers` waits `delay_ms / 1000` seconds
(0.2 s at the default `delay_ms = 200`) between its three attempts — a total
sleep of 400 ms, not the claimed fixed 1-second backoff totalling at least
2000 ms — and then raises a generic exception rather than a typed timeout. -/
theorem backup_retry_backoff_short :
    Backup.read_holding_registers
        [.failure "timed out", .failure "timed out", .failure "timed out"] 200
      = ⟨.error "timed out", 3, [200, 200]⟩ ∧
    (Backup.read_holding_registers
        [.failure "timed out", .failure "timed out", .failure "timed out"] 200).sleeps_ms.sum
      = 400 ∧ (400 : Nat) < 2000 := by
  refine ⟨by decide, by decide, by decide⟩

lemma reader_go_exhausted (delay : Nat) (script : List ReadResult)
    (attempts : Nat) (sleeps : List Nat) :
    Reader.read_registers_go delay script 3 attempts sleeps
      = ⟨none, attempts, sleeps⟩ := by
  cases script with
  | nil => rfl
  | cons r rest => simp [Reader.read_registers_go]

/-- C7 (amended): with a transport whose every receive times out, both
variants make exactly three send/receive attempts.  `EG4ModbusClient` sleeps
1 second between consecutive attempts (total sleep 2000 ms) and then returns
`None` — not a typed timeout error; `CustomModbusClient` sleeps `delay_ms`
milliseconds (200 by default, total 400 ms) between attempts and then raises a
generic exception carrying the last error message.  Neither returns partial or
empty data as a successful read. -/
theorem retry_exhaustion (n : Nat) (h : 3 ≤ n) :
    Reader.read_registers (List.replicate n (.failure "timed out")) 200
      = ⟨none, 3, [1000, 1000]⟩ ∧
    Backup.read_holding_registers (List.replicate n (.failure "timed out")) 200
      = ⟨.error "timed out", 3, [200, 200]⟩ := by
  obtain ⟨k, rfl⟩ : ∃ k, n = k + 3 := ⟨n - 3, by omega⟩
  have hrep : List.replicate (k + 3) (ReadResult.failure "timed out")
      = .failure "timed out" :: .failure "timed out" :: .failure "timed out"
        :: List.replicate k (.failure "timed out") := rfl
  constructor
  · simp only [Reader.read_registers, hrep]
    simp [Reader.read_registers_go, reader_go_exhausted]
  · simp only [Backup.read_holding_registers, hrep]
    simp [Backup.read_holding_go]

/-- Witness for C7 (amended) at five queued timeouts. -/
theorem retry_exhaustion_witness :
    3 ≤ 5 ∧
    (Reader.read_registers (List.replicate 5 (.failure "timed out")) 200
        = ⟨none, 3, [1000, 1000]⟩ ∧
      Backup.read_holding_registers (List.replicate 5 (.failure "timed out")) 200
        = ⟨.error "timed out", 3, [200, 200]⟩) :=
  ⟨by decide, retry_exhaustion 5 (by decide)⟩

/-- C8 (counterexample): the two decoders do not implement the claimed single
behavior.  The eg4 decoder applied to a flags definition naming bit 3 "fault"
on 0b1000 yields the LIST `["fault"]`, not the claimed named-boolean mapping
`{fault: true}`; the backup decoder applied to a scale-0.1 definition with no
`display_as` on 225 yields the raw integer 225, not the claimed scaled 22.5. -/
theorem decode_shape_mismatch :
    Reader.decode_register_value (some Fixtures.flagsFault) 8
      = .flagNames ["fault"] ∧
    Ref.claimed_decode Fixtures.flagsFault 8 = .flagBools [("fault", true)] ∧
    (DecodedValue.flagNames ["fault"] : DecodedValue)
      ≠ .flagBools [("fault", true)] ∧
    Backup.decode_register_value Fixtures.scaleTenth 225 = .intVal 225 ∧
    Ref.claimed_decode Fixtures.scaleTenth 225 = .floatVal (45 / 2) ∧
    (DecodedValue.intVal 225 : DecodedValue) ≠ .floatVal (45 / 2) := by
  refine ⟨by decide, by decide, by decide, by decide, ?_, by decide⟩
  norm_num [Ref.claimed_decode, Fixtures.scaleTenth]

/-- C8 (amended): the program has two decoders.  The eg4 decoder: enum yields
the name mapped to the value in `enum_values` with the raw value as fallback
(2 maps to "standby"); flags yields the list of the names of the set bits;
fields yields each declared byte as a named sub-field; every other
`display_as` (including absent) yields `value * unit_scale` (scale 0.1 on 225
yields 22.5).  The backup decoder: flags yields a named boolean for each
declared bit (bit 3 "fault" on 0b1000 yields `{fault: true}`); enum looks up
`enum_map` with the raw value as fallback; `display_as = "float"` yields
`value * scaling`; everything else yields the raw integer with the unit scale
ignored. -/
theorem decode_register_value_amended :
    (∀ v : Nat, Reader.decode_register_value (some Fixtures.enumStandby) v
        = if v = 2 then .strVal "standby" else .intVal v) ∧
    Reader.decode_register_value (some Fixtures.scaleTenth) 225
      = .floatVal (45 / 2) ∧
    Reader.decode_register_value (some Fixtures.flagsFault) 8
      = .flagNames ["fault"] ∧
    (∀ v : Nat, Reader.decode_register_value (some Fixtures.fieldsLoHi) v
        = .fieldVals [("lo", v &&& 0xFF), ("hi", (v >>> 8) &&& 0xFF)]) ∧
    (∀ v : Nat, Backup.decode_register_value Fixtures.flagsFault v
        = .flagBools [("fault", (v &&& 8) != 0)]) ∧
    (∀ v : Nat, Backup.decode_register_value Fixtures.enumStandbyMap v
        = if v = 2 then .strVal "standby" else .intVal v) ∧
    (∀ v : Nat, Backup.decode_register_value Fixtures.scaleTenth v = .intVal v) ∧
    Backup.decode_register_value Fixtures.floatTenth 225 = .floatVal (45 / 2) := by
  refine ⟨?_, ?_, by decide, ?_, ?_, ?_, ?_, ?_⟩
  · intro v
    rcases eq_or_ne v 2 with hv | hv
    · subst hv; decide
    · simp [Reader.decode_register_value, Fixtures.enumStandby, List.find?,
        beq_false_of_ne (Ne.symm hv), hv]
  · norm_num [Reader.decode_register_value, Fixtures.scaleTenth]
    rfl
  · intro v
    rfl
  · intro v
    rfl
  · intro v
    rcases eq_or_ne v 2 with hv | hv
    · subst hv; decide
    · simp [Backup.decode_register_value, Fixtures.enumStandbyMap, List.find?,
        beq_false_of_ne (Ne.symm hv), hv]
  · intro v
    rfl
  · norm_num [Backup.decode_register_value, Fixtures.floatTenth]
    rfl

/-- C10: whenever the device returns exactly the three requested register
words, `check_time_delta` cannot succeed: the seconds field is read from
`values[3]`, which is out of bounds for a 3-element list, so the exception
handler fires and the function returns `None` — for every possible datetime
semantics `toDelta`. -/
theorem check_time_delta_three_registers
    (toDelta : Nat → Nat → Nat → Nat → Nat → Nat → Option Int) (vs : List Nat)
    (h : vs.length = 3) :
    Reader.check_time_delta toDelta (some vs) = none := by
  have h3 : vs.get? 3 = none := by
    rw [List.get?_eq_none]
    omega
  simp only [Reader.check_time_delta]
  rw [if_neg (by omega), h3]
  cases hv0 : vs.get? 0 <;> cases hv1 : vs.get? 1 <;> cases hv2 : vs.get? 2 <;> rfl

/-- Witness for C10 at a concrete correctly sized 3-register response. -/
theorem check_time_delta_three_registers_witness :
    ([0x25, 0x0101, 0x3000] : List Nat).length = 3 ∧
    Reader.check_time_delta (fun _ _ _ _ _ _ => some 0)
        (some [0x25, 0x0101, 0x3000])
      = none :=
  ⟨by decide, check_time_delta_three_registers _ _ (by decide)⟩

end EG4Bridge
